import Mathlib

/-!
Shallow embedding of the atlas-edc-proxy federation gateway
(src/edcClient.js: the EDC negotiation client and promise cache, and the
express proxy handlers that merge local and federated cohort listings).

Conventions of the embedding:
* Machine state that JavaScript keeps in module-level variables
  (`edrPromiseCache`) is passed explicitly as a `CacheState` value.
* Promises are represented by numeric identifiers; a resolution function
  `Nat → Edr` (or `Except String Edr`) assigns each promise its settled value.
* JavaScript's cooperative scheduling makes the synchronous check-and-insert
  at the top of `requestFederatedData` (lines 24-32) atomic: no `await` occurs
  between reading and writing the cache slot, so concurrent callers interleave
  only at the granularity of these atomic phases.
* Network responses are supplied as explicit environment data; fallible
  operations return `Except String`, mirroring thrown `Error` objects.
* Timer delays (`setTimeout`) are not modelled; only the order and count of
  polling attempts is observable.
-/

/-- The module-level constant `ASSET_ID = "ohdsi-webapi-v2"` (edcClient.js line 3). -/
def ASSET_ID : String := "ohdsi-webapi-v2"

/-- The module-level constant `PROVIDER_PROTOCOL_URL` (edcClient.js line 2). -/
def PROVIDER_PROTOCOL_URL : String := "http://localhost:19194/protocol"

/-- The namespace multiplier literal `1000000` used by the listing handler
(line 252) and the by-id handler (lines 281-282). -/
def NAMESPACE_MULTIPLIER : Nat := 1000000

/-- An EDR (endpoint data reference): the `{endpoint, authorization}` pair
returned by `negotiateAndGetEdr` and used for data-plane pulls. -/
structure Edr where
  endpoint : String
  authorization : String
deriving DecidableEq, Repr

/-- State of the module-level `edrPromiseCache` object (line 7) together with
instrumentation: `cache` maps a string key to the identifier of the stored
promise, `started` counts how many times `negotiateAndGetEdr()` has been
invoked (i.e. how many handshakes were started), and `nextId` supplies fresh
promise identifiers. -/
structure CacheState where
  cache : String → Option Nat
  started : Nat
  nextId : Nat

/-- The initial module state: `edrPromiseCache = {}` (line 7), no handshake
started yet. -/
def emptyCache : CacheState :=
  ⟨fun _ => none, 0, 0⟩

/-- The synchronous check-and-insert phase of `requestFederatedData`
(lines 24-32): if no entry is stored under `ASSET_ID`, start a handshake
(`negotiateAndGetEdr().catch(...)`) and store its promise; otherwise reuse the
stored promise.  Returns the promise the caller will await at line 34.
This whole phase is atomic in the JavaScript event-loop model. -/
def acquireEdrPromise (s : CacheState) : CacheState × Nat :=
  match s.cache ASSET_ID with
  | some p => (s, p)
  | none =>
      (⟨fun k => if k = ASSET_ID then some s.nextId else s.cache k,
        s.started + 1, s.nextId + 1⟩, s.nextId)

/-- The check-and-insert phase as invoked by `requestFederatedData(pathSuffix,
method, body)`: the path suffix and method are parameters of the function
(line 21) but the cache key consulted at lines 24-34 is the constant
`ASSET_ID`, so they are ignored here exactly as in the source. -/
def requestPhaseA (_pathSuffix _method : String) (s : CacheState) : CacheState × Nat :=
  acquireEdrPromise s

/-- Runs the atomic check-and-insert phase for `n` concurrent callers of
`requestFederatedData`.  Each caller performs exactly one atomic phase, so an
arbitrary interleaving of `n` concurrent callers is exactly a sequence of `n`
`acquireEdrPromise` steps; the returned list records the promise each caller
will await. -/
def runCallers : CacheState → Nat → CacheState × List Nat
  | s, 0 => (s, [])
  | s, n + 1 =>
      ((runCallers (acquireEdrPromise s).1 n).1,
       (acquireEdrPromise s).2 :: (runCallers (acquireEdrPromise s).1 n).2)

/-- The `.catch` wrapper installed when the handshake promise is created
(lines 26-29): when the underlying `negotiateAndGetEdr()` settles with an
error, the cache slot is deleted and the error is rethrown; on success the
slot is left in place.  The returned pair is (state visible to waiters when
they resume, outcome surfaced to them): the deletion happens inside the catch
handler, before any waiter of the cached promise is resumed. -/
def settleHandshake (s : CacheState) (outcome : Except String Edr) :
    CacheState × Except String Edr :=
  match outcome with
  | .ok edr => (s, .ok edr)
  | .error e =>
      (⟨fun k => if k = ASSET_ID then none else s.cache k, s.started, s.nextId⟩,
       .error e)

/-- Processing of the data-plane response in `requestFederatedData`
(lines 49-58): `result.ok` means a 2xx status; on a non-ok response with
status 401 or 403 the cache slot is deleted, and in every non-ok case an
error is thrown; on an ok response the parsed body is returned. -/
def processDataPlaneResult {α : Type} (s : CacheState) (status : Nat) (body : α) :
    CacheState × Except String α :=
  if 200 ≤ status ∧ status ≤ 299 then
    (s, .ok body)
  else
    let s' :=
      if status = 401 ∨ status = 403 then
        (⟨fun k => if k = ASSET_ID then none else s.cache k, s.started, s.nextId⟩ : CacheState)
      else s
    (s', .error ("EDC Data Plane responded with status " ++ toString status))

/-- The cache-mutating operations of edcClient.js, for stating reachability
invariants: the check-and-insert phase, handshake settlement, and data-plane
response processing are the only writers of `edrPromiseCache`. -/
inductive CacheOp where
  | request
  | settle (outcome : Except String Edr)
  | dataPlane (status : Nat)

/-- One cache-mutating step. -/
def stepCache (s : CacheState) : CacheOp → CacheState
  | .request => (acquireEdrPromise s).1
  | .settle o => (settleHandshake s o).1
  | .dataPlane st => (processDataPlaneResult s st ()).1

/-- The merged-identifier encoding of the listing handler (line 252):
`node.sourceId * 1000000 + c.id`. -/
def encodeMergedId (nodeId localId : Nat) : Nat :=
  nodeId * NAMESPACE_MULTIPLIER + localId

/-- The reverse mapping of the by-id handler, line 281:
`Math.floor(id / 1000000)`. -/
def decodeSourceId (id : Nat) : Nat :=
  id / NAMESPACE_MULTIPLIER

/-- The reverse mapping of the by-id handler, line 282: `id % 1000000`. -/
def decodeOriginalId (id : Nat) : Nat :=
  id % NAMESPACE_MULTIPLIER

/-- C3: for every `nodeId` and every `localId < 1000000`, decoding the merged
identifier reproduces the original pair:
`floor((nodeId * 1000000 + localId) / 1000000) = nodeId` and
`(nodeId * 1000000 + localId) % 1000000 = localId`. -/
theorem mergedId_roundTrip (nodeId localId : Nat)
    (h : localId < NAMESPACE_MULTIPLIER) :
    decodeSourceId (encodeMergedId nodeId localId) = nodeId ∧
    decodeOriginalId (encodeMergedId nodeId localId) = localId := by
  unfold decodeSourceId decodeOriginalId encodeMergedId NAMESPACE_MULTIPLIER at *
  omega

/-- Witness for C3 at the spec's own example pair (1001, 7). -/
theorem mergedId_roundTrip_witness :
    7 < NAMESPACE_MULTIPLIER ∧
    (decodeSourceId (encodeMergedId 1001 7) = 1001 ∧
     decodeOriginalId (encodeMergedId 1001 7) = 7) :=
  ⟨by decide, mergedId_roundTrip 1001 7 (by decide)⟩

lemma acquireEdrPromise_cached {s : CacheState} {p : Nat}
    (h : s.cache ASSET_ID = some p) : acquireEdrPromise s = (s, p) := by
  unfold acquireEdrPromise
  rw [h]

lemma runCallers_cached {s : CacheState} {p : Nat} (h : s.cache ASSET_ID = some p) :
    ∀ n, runCallers s n = (s, List.replicate n p) := by
  intro n
  induction n with
  | zero => rfl
  | succ m ih =>
      unfold runCallers
      rw [acquireEdrPromise_cached h]
      simp [ih, List.replicate_succ]

lemma acquireEdrPromise_empty :
    acquireEdrPromise emptyCache =
      (⟨fun k => if k = ASSET_ID then some 0 else none, 1, 1⟩, 0) := by
  rfl

/-- C1: for `n ≥ 1` concurrent callers of `requestFederatedData` starting from
an empty cache, exactly one handshake (`negotiateAndGetEdr`) is started, every
caller awaits the same stored promise (identifier 0, minted by the first
caller and observed pending-or-resolved by all later ones), and therefore
under any resolution of the promises all callers resolve to the same
channel value. -/
theorem dedup_single_handshake (n : Nat) (h : 0 < n) :
    (runCallers emptyCache n).1.started = 1 ∧
    (runCallers emptyCache n).2 = List.replicate n 0 ∧
    ∀ resolve : Nat → Edr,
      (runCallers emptyCache n).2.map resolve = List.replicate n (resolve 0) := by
  obtain ⟨m, rfl⟩ : ∃ m, n = m + 1 := ⟨n - 1, by omega⟩
  have hcached :
      (acquireEdrPromise emptyCache).1.cache ASSET_ID = some 0 := by
    rw [acquireEdrPromise_empty]
    simp
  have hpid : (acquireEdrPromise emptyCache).2 = 0 := by
    rw [acquireEdrPromise_empty]
  have hstarted : (acquireEdrPromise emptyCache).1.started = 1 := by
    rw [acquireEdrPromise_empty]
  unfold runCallers
  rw [runCallers_cached hcached m]
  refine ⟨hstarted, ?_, ?_⟩
  · simp [List.replicate_succ, hpid]
  · intro resolve
    simp [List.replicate_succ, hpid]

/-- Witness for C1 at three concurrent callers. -/
theorem dedup_single_handshake_witness :
    0 < 3 ∧
    ((runCallers emptyCache 3).1.started = 1 ∧
     (runCallers emptyCache 3).2 = List.replicate 3 0 ∧
     ∀ resolve : Nat → Edr,
       (runCallers emptyCache 3).2.map resolve = List.replicate 3 (resolve 0)) :=
  ⟨by decide, dedup_single_handshake 3 (by decide)⟩

/-- C2: for every failed handshake, the `.catch` wrapper deletes the cache
entry for the asset and only then rethrows, so the state observed by waiters
when the failure surfaces holds no entry for `ASSET_ID`, the outcome they
observe is exactly the original error, and the next call for the same asset
finds an empty slot and starts a fresh handshake (one more invocation of
`negotiateAndGetEdr`, with a freshly minted promise). -/
theorem handshake_failure_clears_cache (s : CacheState) (e : String) :
    (settleHandshake s (.error e)).1.cache ASSET_ID = none ∧
    (settleHandshake s (.error e)).2 = Except.error e ∧
    (acquireEdrPromise (settleHandshake s (.error e)).1).1.started = s.started + 1 ∧
    (acquireEdrPromise (settleHandshake s (.error e)).1).2 = s.nextId := by
  refine ⟨by simp [settleHandshake], rfl, ?_, ?_⟩ <;>
    simp [settleHandshake, acquireEdrPromise]

/-- C4: for every data-plane response with status 401 or 403, the cache entry
for the asset is deleted immediately (absent in the state right after the
response is processed, so the next call starts a new negotiation), and the
failing call itself surfaces an error to its caller instead of retrying. -/
theorem channel_rejected_evicts {α : Type} (s : CacheState) (status : Nat) (body : α)
    (h : status = 401 ∨ status = 403) :
    (processDataPlaneResult s status body).1.cache ASSET_ID = none ∧
    (processDataPlaneResult s status body).2 =
      Except.error ("EDC Data Plane responded with status " ++ toString status) ∧
    (acquireEdrPromise (processDataPlaneResult s status body).1).1.started =
      s.started + 1 := by
  rcases h with h | h <;> subst h <;>
    refine ⟨by simp [processDataPlaneResult], by simp [processDataPlaneResult], ?_⟩ <;>
    simp [processDataPlaneResult, acquireEdrPromise]

/-- Witness for C4 at status 401 on an arbitrary concrete state. -/
theorem channel_rejected_evicts_witness :
    ((401 : Nat) = 401 ∨ (401 : Nat) = 403) ∧
    ((processDataPlaneResult emptyCache 401 "r").1.cache ASSET_ID = none ∧
     (processDataPlaneResult emptyCache 401 "r").2 =
       Except.error ("EDC Data Plane responded with status " ++ toString (401 : Nat)) ∧
     (acquireEdrPromise (processDataPlaneResult emptyCache 401 "r").1).1.started =
       emptyCache.started + 1) :=
  ⟨Or.inl rfl, channel_rejected_evicts emptyCache 401 "r" (Or.inl rfl)⟩

lemma stepCache_preserves_other_keys (s : CacheState) (op : CacheOp) (k : String)
    (hk : k ≠ ASSET_ID) (h : s.cache k = none) : (stepCache s op).cache k = none := by
  cases op with
  | request =>
      unfold stepCache acquireEdrPromise
      cases hc : s.cache ASSET_ID <;> simp [hc, hk, h]
  | settle o =>
      cases o <;> simp [stepCache, settleHandshake, hk, h]
  | dataPlane st =>
      unfold stepCache processDataPlaneResult
      by_cases h2 : 200 ≤ st ∧ st ≤ 299
      · simp [h2, h]
      · by_cases h3 : st = 401 ∨ st = 403 <;> simp [h2, h3, hk, h]

/-- C10: every call to `requestFederatedData` keys the cache by the constant
`ASSET_ID`, independent of the requested path, method, or targeted node:
(1) the check-and-insert phase literally ignores `pathSuffix` and `method`;
(2) from the empty cache, after any sequence of cache operations, every key
other than `ASSET_ID` is unmapped, so the cache holds at most one entry;
(3) whenever the cache holds a promise `p` (a negotiated channel, pending or
resolved), any number of further callers — in particular each per-node
iteration of the merged listing — all receive that same promise `p` and start
no new handshake, so all configured federated nodes share the one channel. -/
theorem cache_keyed_by_constant_assetId :
    (∀ p₁ m₁ p₂ m₂ s, requestPhaseA p₁ m₁ s = requestPhaseA p₂ m₂ s) ∧
    (∀ (ops : List CacheOp) (k : String), k ≠ ASSET_ID →
      (ops.foldl stepCache emptyCache).cache k = none) ∧
    (∀ (s : CacheState) (p n : Nat), s.cache ASSET_ID = some p →
      runCallers s n = (s, List.replicate n p)) := by
  refine ⟨fun _ _ _ _ _ => rfl, ?_, fun s p n h => runCallers_cached h n⟩
  intro ops
  suffices H : ∀ s : CacheState, (∀ k, k ≠ ASSET_ID → s.cache k = none) →
      ∀ k, k ≠ ASSET_ID → (ops.foldl stepCache s).cache k = none by
    exact H emptyCache (fun _ _ => rfl)
  induction ops with
  | nil => intro s hs k hk; exact hs k hk
  | cons op rest ih =>
      intro s hs k hk
      exact ih (stepCache s op)
        (fun k' hk' => stepCache_preserves_other_keys s op k' hk' (hs k' hk')) k hk

/-- Witness for C10: concrete instantiations of each conjunct: any two
path/method pairs agree; after a concrete operation sequence a foreign key is
unmapped; and from a cache holding promise 0 two listing iterations both
receive promise 0 without starting a handshake. -/
theorem cache_keyed_by_constant_assetId_witness :
    requestPhaseA "/cohortdefinition" "GET" emptyCache =
      requestPhaseA "/cohortdefinition/7" "POST" emptyCache ∧
    (([CacheOp.request, CacheOp.dataPlane 401, CacheOp.request].foldl
        stepCache emptyCache).cache "other-asset" = none) ∧
    runCallers (stepCache emptyCache .request) 2 =
      (stepCache emptyCache .request, List.replicate 2 0) :=
  ⟨cache_keyed_by_constant_assetId.1 "/cohortdefinition" "GET" "/cohortdefinition/7" "POST" emptyCache,
   cache_keyed_by_constant_assetId.2.1 [CacheOp.request, CacheOp.dataPlane 401, CacheOp.request]
     "other-asset" (by decide),
   cache_keyed_by_constant_assetId.2.2 (stepCache emptyCache .request) 0 2 (by rfl)⟩

/-- One polled status response body: `fetchWithRetry` inspects `data.state`,
and the negotiation caller reads `data.contractAgreementId` (line 112), which
may be absent. -/
structure PollData where
  state : String
  contractAgreementId : Option String
deriving DecidableEq, Repr

/-- The loop guard of `fetchWithRetry` (line 13): the response ends polling
exactly when its state is `"FINALIZED"` or `"STARTED"`. -/
def pollDone (d : PollData) : Bool :=
  d.state = "FINALIZED" || d.state = "STARTED"

/-- The body of `fetchWithRetry` (lines 10-18): starting at attempt index `i`
with the given remaining attempts, fetch the `i`-th response; return it if
`pollDone`, otherwise sleep and continue.  Exhausting the attempts throws the
timeout error.  The second component counts the fetches actually performed
(the observable polling attempts). -/
def fetchWithRetryGo (url : String) (responses : Nat → PollData) :
    Nat → Nat → Except String PollData × Nat
  | i, 0 => (.error ("Timeout waiting for EDC operation at " ++ url), i)
  | i, remaining + 1 =>
      if pollDone (responses i) then (.ok (responses i), i + 1)
      else fetchWithRetryGo url responses (i + 1) remaining

/-- The function `fetchWithRetry(url, options, maxRetries = 30, delayMs = 1000)`
(lines 9-19), with the network stubbed by `responses` giving the body of the
`i`-th poll; `delayMs` only paces the loop and is not modelled. -/
def fetchWithRetry (url : String) (responses : Nat → PollData)
    (maxRetries : Nat) : Except String PollData × Nat :=
  fetchWithRetryGo url responses 0 maxRetries

/-- A usage policy attached to a catalog dataset (`odrl:hasPolicy`): the code
reads only its `@id` (line 85); its rule clauses are carried opaquely. -/
structure CatalogPolicy where
  id : String
  permission : List String
  prohibition : List String
  obligation : List String
deriving DecidableEq, Repr

/-- A catalog dataset: `@id` and its attached policy. -/
structure Dataset where
  id : String
  hasPolicy : CatalogPolicy
deriving DecidableEq, Repr

/-- The `dcat:dataset` field of a catalog response: JSON allows a single
object or an array here, and the code distinguishes them with
`Array.isArray` (line 77). -/
inductive DatasetField where
  | single (d : Dataset)
  | array (ds : List Dataset)
deriving DecidableEq, Repr

/-- The dataset selection of lines 76-79: take `catalog["dcat:dataset"]`; if
it is an array, replace it by `find(d => d["@id"] === ASSET_ID)`. -/
def selectDataset : Option DatasetField → Option Dataset
  | none => none
  | some (.single d) => some d
  | some (.array ds) => ds.find? (fun d => d.id = ASSET_ID)

/-- The guard of lines 80-82: if no dataset was selected, or the selected
dataset's `@id` differs from `ASSET_ID`, throw `"Asset not found in catalog"`. -/
def resolveDataset (catalog : Option DatasetField) : Except String Dataset :=
  match selectDataset catalog with
  | none => .error "Asset not found in catalog"
  | some d =>
      if d.id = ASSET_ID then .ok d else .error "Asset not found in catalog"

/-- All datasets contained in a catalog response, for stating absence. -/
def catalogDatasets : Option DatasetField → List Dataset
  | none => []
  | some (.single d) => [d]
  | some (.array ds) => ds

/-- The serialized `policy` object of the negotiation request body
(lines 97-103), as the ordered key/value pairs produced by `JSON.stringify`:
`{"@context": ..., "@id": offerId, "@type": "Offer", assigner: "provider",
target: ASSET_ID}`. -/
def negotiationPolicyJson (offerId : String) : List (String × String) :=
  [("@context", "http://www.w3.org/ns/odrl.jsonld"),
   ("@id", offerId),
   ("@type", "Offer"),
   ("assigner", "provider"),
   ("target", ASSET_ID)]

/-- The outbound requests `negotiateAndGetEdr` issues, in order.  A
contract-negotiation POST carries its serialized policy object; polls carry
the identifier they poll. -/
inductive Request where
  | catalogRequest
  | contractNegotiation (policy : List (String × String))
  | negotiationStatus (negotiationId : String)
  | transferProcess (contractId : Option String)
  | transferStatus (transferProcessId : String)
  | edrRequest (transferProcessId : String)
deriving DecidableEq, Repr

/-- The stubbed remote control plane for one run of `negotiateAndGetEdr`: the
catalog response body, the `@id` of the negotiation acknowledgement
(line 107), the negotiation status poll bodies, the `@id` of the transfer
acknowledgement (line 130), the transfer status poll bodies, and the EDR
body (line 139). -/
structure Env where
  catalog : Option DatasetField
  negotiationId : String
  negotiationPolls : Nat → PollData
  transferProcessId : String
  transferPolls : Nat → PollData
  edr : Edr

/-- The function `negotiateAndGetEdr` (lines 61-142), returning the ordered
trace of outbound requests together with the result (the EDR on success, the
first thrown error otherwise).  Steps: catalog fetch and dataset resolution
(61-82); offer extraction and negotiation POST (84-107); negotiation polling
via `fetchWithRetry` (109-112); transfer POST referencing
`finalNeg.contractAgreementId` (114-130); transfer polling (132-134); EDR
fetch (136-141). -/
def negotiateAndGetEdr (env : Env) : List Request × Except String Edr :=
  match resolveDataset env.catalog with
  | .error e => ([Request.catalogRequest], .error e)
  | .ok dataset =>
      match fetchWithRetry ("/contractnegotiations/" ++ env.negotiationId)
          env.negotiationPolls 30 with
      | (.error e, polls) =>
          ([Request.catalogRequest,
            Request.contractNegotiation (negotiationPolicyJson dataset.hasPolicy.id)] ++
           List.replicate polls (Request.negotiationStatus env.negotiationId),
           .error e)
      | (.ok finalNeg, polls) =>
          match fetchWithRetry ("/transferprocesses/" ++ env.transferProcessId)
              env.transferPolls 30 with
          | (.error e, tpolls) =>
              ([Request.catalogRequest,
                Request.contractNegotiation (negotiationPolicyJson dataset.hasPolicy.id)] ++
               List.replicate polls (Request.negotiationStatus env.negotiationId) ++
               [Request.transferProcess finalNeg.contractAgreementId] ++
               List.replicate tpolls (Request.transferStatus env.transferProcessId),
               .error e)
          | (.ok _, tpolls) =>
              ([Request.catalogRequest,
                Request.contractNegotiation (negotiationPolicyJson dataset.hasPolicy.id)] ++
               List.replicate polls (Request.negotiationStatus env.negotiationId) ++
               [Request.transferProcess finalNeg.contractAgreementId] ++
               List.replicate tpolls (Request.transferStatus env.transferProcessId) ++
               [Request.edrRequest env.transferProcessId],
               .ok env.edr)

lemma fetchWithRetryGo_timeout (url : String) (responses : Nat → PollData) :
    ∀ fuel i, (∀ j, i ≤ j → j < i + fuel → pollDone (responses j) = false) →
      fetchWithRetryGo url responses i fuel =
        (.error ("Timeout waiting for EDC operation at " ++ url), i + fuel) := by
  intro fuel
  induction fuel with
  | zero => intro i h; simp [fetchWithRetryGo]
  | succ m ih =>
      intro i h
      have h0 : pollDone (responses i) = false := h i (Nat.le_refl i) (by omega)
      have hrec := ih (i + 1) (fun j hj1 hj2 => h j (by omega) (by omega))
      unfold fetchWithRetryGo
      rw [h0]
      simp only [Bool.false_eq_true, if_false, hrec]
      have : i + 1 + m = i + (m + 1) := by omega
      rw [this]

lemma fetchWithRetryGo_success (url : String) (responses : Nat → PollData) :
    ∀ fuel i j, i ≤ j → j < i + fuel → pollDone (responses j) = true →
      (∀ k, i ≤ k → k < j → pollDone (responses k) = false) →
      fetchWithRetryGo url responses i fuel = (.ok (responses j), j + 1) := by
  intro fuel
  induction fuel with
  | zero => intro i j h1 h2; omega
  | succ m ih =>
      intro i j h1 h2 hdone hbefore
      by_cases hij : i = j
      · subst hij
        unfold fetchWithRetryGo
        rw [hdone]
        simp
      · have h0 : pollDone (responses i) = false :=
          hbefore i (Nat.le_refl i) (by omega)
        unfold fetchWithRetryGo
        rw [h0]
        simp only [Bool.false_eq_true, if_false]
        exact ih (i + 1) j (by omega) (by omega) hdone
          (fun k hk1 hk2 => hbefore k (by omega) hk2)

/-- C5 (amended): negotiation polling behaviour of `fetchWithRetry` with its
fixed 30-attempt budget.  (1) If the `j`-th response (`j < 30`) is the first
whose state is `FINALIZED` or `STARTED`, polling ends after exactly `j + 1`
attempts and yields that response body — from which the caller then reads
`contractAgreementId` (conjunct 3).  (2) If no response within the budget has
state `FINALIZED` or `STARTED` — in particular when responses report a
remote-terminated state, which the loop does not recognise — all 30 attempts
are consumed and the timeout error is thrown.  (3) On success of negotiation
polling at attempt `j`, `negotiateAndGetEdr` submits the transfer request
carrying `contractAgreementId` of the winning poll response. -/
theorem polling_terminal_behavior (url : String) (responses : Nat → PollData) :
    (∀ j, j < 30 → pollDone (responses j) = true →
      (∀ k, k < j → pollDone (responses k) = false) →
      fetchWithRetry url responses 30 = (.ok (responses j), j + 1)) ∧
    ((∀ j, j < 30 → pollDone (responses j) = false) →
      fetchWithRetry url responses 30 =
        (.error ("Timeout waiting for EDC operation at " ++ url), 30)) ∧
    (∀ (env : Env) (dataset : Dataset) (j : Nat),
      resolveDataset env.catalog = .ok dataset →
      env.negotiationPolls = responses → j < 30 →
      pollDone (responses j) = true →
      (∀ k, k < j → pollDone (responses k) = false) →
      Request.transferProcess ((responses j).contractAgreementId) ∈
        (negotiateAndGetEdr env).1) := by
  refine ⟨?_, ?_, ?_⟩
  · intro j hj hdone hbefore
    exact fetchWithRetryGo_success url responses 30 0 j (Nat.zero_le j) (by omega)
      hdone (fun k _ hk2 => hbefore k hk2)
  · intro h
    exact fetchWithRetryGo_timeout url responses 30 0 (fun j _ hj => h j (by omega))
  · intro env dataset j hres hpolls hj hdone hbefore
    have hneg : fetchWithRetry ("/contractnegotiations/" ++ env.negotiationId)
        env.negotiationPolls 30 = (.ok (responses j), j + 1) := by
      rw [hpolls]
      exact fetchWithRetryGo_success _ responses 30 0 j (Nat.zero_le j) (by omega)
        hdone (fun k _ hk2 => hbefore k hk2)
    unfold negotiateAndGetEdr
    rw [hres, hneg]
    cases htr : fetchWithRetry ("/transferprocesses/" ++ env.transferProcessId)
        env.transferPolls 30 with
    | mk tres tpolls =>
        cases tres with
        | error e => simp
        | ok d => simp

/-- Script for the C5 witness: attempts 0 and 1 report a pending state,
attempt 2 reports FINALIZED with agreement id X. -/
def negotiationPollScript (j : Nat) : PollData :=
  if j = 2 then ⟨"FINALIZED", some "X"⟩ else ⟨"NEGOTIATING", none⟩

/-- Witness for C5 (amended) at the scripted poll sequence: polling ends at
attempt 3 with the FINALIZED body. -/
theorem polling_terminal_behavior_witness :
    fetchWithRetry "u" negotiationPollScript 30 =
      (.ok (negotiationPollScript 2), 3) :=
  (polling_terminal_behavior "u" negotiationPollScript).1 2 (by decide) (by decide)
    (by decide)

/-- Counterexample for C5 as stated: a negotiation whose status polls all
report the remote-terminated state `"TERMINATED"` does not fail immediately
after the first such response — all 30 polling attempts are performed — and
the error raised is the generic timeout, not an immediate negotiation-failure
error. -/
theorem polling_terminated_counterexample :
    fetchWithRetry "u" (fun _ => ⟨"TERMINATED", none⟩) 30 =
      (.error ("Timeout waiting for EDC operation at " ++ "u"), 30) := by
  rfl

/-- C6: for every catalog response containing no dataset whose `@id` equals
`ASSET_ID`, `negotiateAndGetEdr` throws `"Asset not found in catalog"` right
after the catalog fetch: the request trace is exactly the single catalog
request, so in particular no contract-negotiation POST is sent and no retry
of the catalog lookup happens within the call. -/
theorem missing_asset_aborts (env : Env)
    (h : ∀ d ∈ catalogDatasets env.catalog, d.id ≠ ASSET_ID) :
    negotiateAndGetEdr env =
      ([Request.catalogRequest], .error "Asset not found in catalog") ∧
    ∀ p, Request.contractNegotiation p ∉ (negotiateAndGetEdr env).1 := by
  have hres : resolveDataset env.catalog = .error "Asset not found in catalog" := by
    cases henv : env.catalog with
    | none => simp [resolveDataset, selectDataset]
    | some df =>
        cases df with
        | single d =>
            have hd : d.id ≠ ASSET_ID := h d (by simp [catalogDatasets, henv])
            simp [resolveDataset, selectDataset, hd]
        | array ds =>
            have hfind : ds.find? (fun d => d.id = ASSET_ID) = none := by
              rw [List.find?_eq_none]
              intro d hd
              simp [h d (by simp [catalogDatasets, henv, hd])]
            simp [resolveDataset, selectDataset, hfind]
  have htrace : negotiateAndGetEdr env =
      ([Request.catalogRequest], .error "Asset not found in catalog") := by
    unfold negotiateAndGetEdr
    rw [hres]
  refine ⟨htrace, ?_⟩
  intro p hp
  rw [htrace] at hp
  simp at hp

/-- Environment for the C6 witness: the catalog advertises one dataset whose
identifier is `"node-A"`, not the target asset id. -/
def missingAssetEnv : Env :=
  ⟨some (.array [⟨"node-A", ⟨"offer-0", [], [], []⟩⟩]), "neg-1",
   fun _ => ⟨"NEGOTIATING", none⟩, "tp-1",
   fun _ => ⟨"STARTED", none⟩, ⟨"http://dataplane", "token"⟩⟩

/-- Witness for C6 at the concrete mismatching catalog. -/
theorem missing_asset_aborts_witness :
    negotiateAndGetEdr missingAssetEnv =
      ([Request.catalogRequest], .error "Asset not found in catalog") ∧
    ∀ p, Request.contractNegotiation p ∉ (negotiateAndGetEdr missingAssetEnv).1 :=
  missing_asset_aborts missingAssetEnv (by decide)

/-- C7 (amended): for every successful catalog discovery, the
contract-negotiation request is the second outbound request, and its policy
object echoes only the discovered offer's `@id` (together with the fixed
fields `@context`, `@type: "Offer"`, `assigner: "provider"`,
`target: ASSET_ID`): its serialized keys are exactly those five, so the
permission, prohibition, and obligation clauses of the discovered usage
policy are not echoed into the request. -/
theorem negotiation_request_policy_shape (env : Env) (dataset : Dataset)
    (h : resolveDataset env.catalog = .ok dataset) :
    (∃ rest, (negotiateAndGetEdr env).1 =
        Request.catalogRequest ::
          Request.contractNegotiation (negotiationPolicyJson dataset.hasPolicy.id) ::
            rest) ∧
    (negotiationPolicyJson dataset.hasPolicy.id).map Prod.fst =
      ["@context", "@id", "@type", "assigner", "target"] ∧
    (negotiationPolicyJson dataset.hasPolicy.id).lookup "permission" = none ∧
    (negotiationPolicyJson dataset.hasPolicy.id).lookup "prohibition" = none ∧
    (negotiationPolicyJson dataset.hasPolicy.id).lookup "obligation" = none := by
  refine ⟨?_, rfl, rfl, rfl, rfl⟩
  unfold negotiateAndGetEdr
  rw [h]
  cases hneg : fetchWithRetry ("/contractnegotiations/" ++ env.negotiationId)
      env.negotiationPolls 30 with
  | mk res polls =>
      cases res with
      | error e => exact ⟨_, rfl⟩
      | ok finalNeg =>
          cases htr : fetchWithRetry ("/transferprocesses/" ++ env.transferProcessId)
              env.transferPolls 30 with
          | mk tres tpolls =>
              cases tres with
              | error e => exact ⟨_, rfl⟩
              | ok d => exact ⟨_, rfl⟩

/-- Dataset for the C7 theorems: the advertised usage policy carries
non-empty permission, prohibition, and obligation clauses. -/
def clauseDataset : Dataset :=
  ⟨ASSET_ID, ⟨"offer-1", ["use-clause"], ["share-clause"], ["attribute-clause"]⟩⟩

/-- Environment for the C7 theorems: discovery succeeds on `clauseDataset`
and both polling phases succeed immediately. -/
def clauseEnv : Env :=
  ⟨some (.array [clauseDataset]), "neg-1",
   fun _ => ⟨"FINALIZED", some "agreement-1"⟩, "tp-1",
   fun _ => ⟨"STARTED", none⟩, ⟨"http://dataplane", "token"⟩⟩

/-- Witness for C7 (amended) at the concrete discovery. -/
theorem negotiation_request_policy_shape_witness :
    (∃ rest, (negotiateAndGetEdr clauseEnv).1 =
        Request.catalogRequest ::
          Request.contractNegotiation
            (negotiationPolicyJson clauseDataset.hasPolicy.id) :: rest) ∧
    (negotiationPolicyJson clauseDataset.hasPolicy.id).map Prod.fst =
      ["@context", "@id", "@type", "assigner", "target"] ∧
    (negotiationPolicyJson clauseDataset.hasPolicy.id).lookup "permission" = none ∧
    (negotiationPolicyJson clauseDataset.hasPolicy.id).lookup "prohibition" = none ∧
    (negotiationPolicyJson clauseDataset.hasPolicy.id).lookup "obligation" = none :=
  negotiation_request_policy_shape clauseEnv clauseDataset (by rfl)

/-- Counterexample for C7 as stated: for the concrete catalog discovery
`clauseEnv`, whose dataset policy carries the permission clause
`"use-clause"` (and non-empty prohibition and obligation clauses), the
contract-negotiation request that `negotiateAndGetEdr` actually sends has a
policy object with no `permission`, `prohibition`, or `obligation` key at
all, so the clauses are omitted rather than echoed verbatim. -/
theorem negotiation_omits_clauses_counterexample :
    clauseDataset.hasPolicy.permission = ["use-clause"] ∧
    clauseDataset.hasPolicy.prohibition = ["share-clause"] ∧
    clauseDataset.hasPolicy.obligation = ["attribute-clause"] ∧
    (negotiateAndGetEdr clauseEnv).1.get? 1 =
      some (Request.contractNegotiation (negotiationPolicyJson "offer-1")) ∧
    (negotiationPolicyJson "offer-1").lookup "permission" = none ∧
    (negotiationPolicyJson "offer-1").lookup "prohibition" = none ∧
    (negotiationPolicyJson "offer-1").lookup "obligation" = none := by
  refine ⟨rfl, rfl, rfl, ?_, rfl, rfl, rfl⟩
  rfl

/-- A source daimon entry of a federated node (server configuration,
lines 168-172). -/
structure Daimon where
  daimonType : String
  tableQualifier : String
  priority : Nat
deriving DecidableEq, Repr

/-- A configured federated node (server configuration, lines 162-185). -/
structure FederatedNode where
  sourceId : Nat
  sourceName : String
  sourceDialect : String
  sourceKey : String
  daimons : List Daimon
deriving DecidableEq, Repr

/-- The standard daimon list shared by both configured nodes. -/
def standardDaimons : List Daimon :=
  [⟨"CDM", "cdm", 1⟩, ⟨"Vocabulary", "vocab", 1⟩, ⟨"Results", "results", 1⟩]

/-- The first configured node (lines 163-173). -/
def hPazNode : FederatedNode :=
  ⟨1001, "Hospital La Paz (Federated)", "postgresql", "hPaz", standardDaimons⟩

/-- The second configured node (lines 174-184). -/
def hClinicoNode : FederatedNode :=
  ⟨1002, "Hospital Clínico (Federated)", "postgresql", "hClinico", standardDaimons⟩

/-- The process-wide `FEDERATED_NODES` configuration (lines 162-185). -/
def FEDERATED_NODES : List FederatedNode :=
  [hPazNode, hClinicoNode]

/-- A cohort-definition record: the handlers touch only `id` and `name`; the
`rest` field stands for all other fields, which the object spread `{...c}`
carries through unchanged. -/
structure Cohort where
  id : Nat
  name : String
  rest : String
deriving DecidableEq, Repr

/-- The namespacing applied to each remote cohort in the listing handler
(lines 250-254): the new id is `node.sourceId * 1000000 + c.id` and the name
is prefixed with the node's display name; everything else is spread through. -/
def namespacedCohort (node : FederatedNode) (c : Cohort) : Cohort :=
  ⟨encodeMergedId node.sourceId c.id, "[" ++ node.sourceName ++ "] " ++ c.name, c.rest⟩

/-- The merged-listing handler `GET /WebAPI/cohortdefinition` (lines 230-266):
the local fetch contributes its body when it responds ok and the empty list
otherwise; then, for each configured node in order, the federated fetch
(`requestFederatedData("/cohortdefinition", "GET")`, whose outcome per
iteration is `fetchNode node`) contributes its namespaced records on success
and nothing on failure — the `catch` at lines 256-258 only logs.  The
response is always the concatenation, never an error for the whole listing. -/
def cohortListingHandler (localResult : Except String (List Cohort))
    (fetchNode : FederatedNode → Except String (List Cohort)) : List Cohort :=
  (match localResult with
   | .ok cs => cs
   | .error _ => []) ++
  FEDERATED_NODES.foldl
    (fun acc node =>
      match fetchNode node with
      | .ok remoteCohorts => acc ++ remoteCohorts.map (namespacedCohort node)
      | .error _ => acc)
    []

/-- The possible dispositions of the by-id handler
`GET /WebAPI/cohortdefinition/:id` (lines 268-303). -/
inductive RouteResult where
  | next
  | notFound
  | ok (c : Cohort)
  | serverError
deriving DecidableEq, Repr

/-- The by-id handler (lines 268-303) for a purely numeric id (the regex
guard at line 271 has already accepted): ids below `1000000000` fall through
to the local backend (`next()`, line 277); otherwise the id is decoded with
`Math.floor(id / 1000000)` and `id % 1000000`, an unknown `sourceId` answers
404 (line 286), and a known node fetches
`/cohortdefinition/${originalId}` through the EDC channel (`fetchRemote`
gives the outcome), rewrites `id` to the requested merged id and prefixes the
name with the node's display name (lines 295-296); a thrown fetch error is
answered with status 500 (line 301). -/
def cohortByIdHandler (id : Nat) (fetchRemote : Nat → Except String Cohort) :
    RouteResult :=
  if id < 1000000000 then
    .next
  else
    match FEDERATED_NODES.find? (fun n => n.sourceId = decodeSourceId id) with
    | none => .notFound
    | some node =>
        match fetchRemote (decodeOriginalId id) with
        | .error _ => .serverError
        | .ok remoteDef =>
            .ok ⟨id, "[" ++ node.sourceName ++ "] " ++ remoteDef.name, remoteDef.rest⟩

/-- C8: for every merged-listing request with the local fetch succeeding, if
one configured node's federated fetch fails and the other's succeeds, the
handler still answers normally with the local records followed by exactly the
successful node's namespaced records; the failing node contributes nothing
and its error is not propagated (both failure orders are covered). -/
theorem listing_isolates_node_failure
    (localCohorts remoteCohorts : List Cohort) (e : String)
    (fetchNode : FederatedNode → Except String (List Cohort)) :
    (fetchNode hPazNode = .error e → fetchNode hClinicoNode = .ok remoteCohorts →
      cohortListingHandler (.ok localCohorts) fetchNode =
        localCohorts ++ remoteCohorts.map (namespacedCohort hClinicoNode)) ∧
    (fetchNode hPazNode = .ok remoteCohorts → fetchNode hClinicoNode = .error e →
      cohortListingHandler (.ok localCohorts) fetchNode =
        localCohorts ++ remoteCohorts.map (namespacedCohort hPazNode)) := by
  constructor <;> intro h1 h2 <;>
    simp [cohortListingHandler, FEDERATED_NODES, h1, h2]

/-- Witness for C8: node 1001 fails with a network error, node 1002 returns
one cohort; the listing is the local record followed by the namespaced remote
record. -/
theorem listing_isolates_node_failure_witness :
    (fun n => if n = hPazNode then (.error "fetch failed" : Except String (List Cohort))
              else .ok [⟨7, "Remote", "payload"⟩]) hPazNode = .error "fetch failed" ∧
    (fun n => if n = hPazNode then (.error "fetch failed" : Except String (List Cohort))
              else .ok [⟨7, "Remote", "payload"⟩]) hClinicoNode = .ok [⟨7, "Remote", "payload"⟩] ∧
    cohortListingHandler (.ok [⟨5, "Local", "x"⟩])
        (fun n => if n = hPazNode then .error "fetch failed"
                  else .ok [⟨7, "Remote", "payload"⟩]) =
      [⟨5, "Local", "x"⟩] ++
        [(⟨7, "Remote", "payload"⟩ : Cohort)].map (namespacedCohort hClinicoNode) := by
  refine ⟨by simp, by simp [hPazNode, hClinicoNode, standardDaimons], ?_⟩
  exact (listing_isolates_node_failure [⟨5, "Local", "x"⟩] [⟨7, "Remote", "payload"⟩]
      "fetch failed" _).1 (by simp)
      (by simp [hPazNode, hClinicoNode, standardDaimons])

/-- C9: disposition of the by-id handler for every purely numeric id and
every remote fetch outcome.  (1) An id below the namespace boundary
`1000000000` passes through untouched to the local backend.  (2) An id at or
above the boundary whose decoded `sourceId` matches a configured node, with
the remote fetch of the decoded original id succeeding, is answered with the
remote record rewritten to the merged form: its id is the requested merged id
and its name is prefixed with the node's display name (other fields
unchanged).  (3) An id at or above the boundary whose decoded `sourceId`
matches no configured node is answered 404 NotFound. -/
theorem byId_routing (id : Nat) (fetchRemote : Nat → Except String Cohort) :
    (id < 1000000000 → cohortByIdHandler id fetchRemote = .next) ∧
    (∀ node remoteDef, 1000000000 ≤ id →
      FEDERATED_NODES.find? (fun n => n.sourceId = decodeSourceId id) = some node →
      fetchRemote (decodeOriginalId id) = .ok remoteDef →
      cohortByIdHandler id fetchRemote =
        .ok ⟨id, "[" ++ node.sourceName ++ "] " ++ remoteDef.name, remoteDef.rest⟩) ∧
    (1000000000 ≤ id →
      FEDERATED_NODES.find? (fun n => n.sourceId = decodeSourceId id) = none →
      cohortByIdHandler id fetchRemote = .notFound) := by
  refine ⟨?_, ?_, ?_⟩
  · intro h
    simp [cohortByIdHandler, h]
  · intro node remoteDef hge hfind hfetch
    have hlt : ¬ id < 1000000000 := by omega
    simp [cohortByIdHandler, hlt, hfind, hfetch]
  · intro hge hfind
    have hlt : ¬ id < 1000000000 := by omega
    simp [cohortByIdHandler, hlt, hfind]

/-- Witness for C9: id 5 passes through; merged id 1001000007 with a
successful remote fetch of original id 7 is rewritten for node 1001; merged
id 1000000000 decodes to the unconfigured sourceId 1000 and is answered 404. -/
theorem byId_routing_witness :
    cohortByIdHandler 5 (fun _ => .ok ⟨7, "Remote", "payload"⟩) = .next ∧
    cohortByIdHandler 1001000007 (fun _ => .ok ⟨7, "Remote", "payload"⟩) =
      .ok ⟨1001000007, "[" ++ hPazNode.sourceName ++ "] " ++ "Remote", "payload"⟩ ∧
    cohortByIdHandler 1000000000 (fun _ => .ok ⟨7, "Remote", "payload"⟩) = .notFound :=
  ⟨(byId_routing 5 (fun _ => .ok ⟨7, "Remote", "payload"⟩)).1 (by decide),
   (byId_routing 1001000007 (fun _ => .ok ⟨7, "Remote", "payload"⟩)).2.1 hPazNode
     ⟨7, "Remote", "payload"⟩ (by decide) (by decide) rfl,
   (byId_routing 1000000000 (fun _ => .ok ⟨7, "Remote", "payload"⟩)).2.2
     (by decide) (by decide)⟩
